import Mathlib

set_option maxRecDepth 100000
set_option maxHeartbeats 2000000

/-!
Shallow embedding of the NetraAI Risk Scoring Engine
(`backend/risk_engine.py`, class `RiskScoringEngine`) together with the
data model from `backend/models.py`.

Numeric values (pandas floats) are modelled as exact rationals `ℚ`;
pandas DataFrames are modelled as Lists of typed row records, with the
pandas boolean-mask filters becoming `List.filter`.  The NetworkX
`nx.Graph` is an undirected simple graph modelled as a duplicate-free
node list plus an edge list of unordered pairs (NetworkX folds parallel
edges; edge attributes such as `relationship_type` are stored by the
source but never read by the engine, so they are dropped here).
-/

namespace NetraAI

/-- A row of the `companies` table (columns used by the engine). -/
structure Company where
  company_id : String
  address : String
  registration_year : Int
  fraud_label : Int
  deriving Repr, DecidableEq

/-- A row of the `directors` table (columns used by the engine). -/
structure Director where
  director_id : String
  deriving Repr, DecidableEq

/-- A row of the `tenders` table (columns used by the engine). -/
structure Tender where
  tender_id : String
  contract_value : ℚ
  deriving Repr, DecidableEq

/-- A row of the `relationships` table. -/
structure Relationship where
  source_id : String
  target_id : String
  relationship_type : String
  deriving Repr, DecidableEq

/-- The `data` dict handed to `RiskScoringEngine.__init__`. -/
structure DataTables where
  companies : List Company
  directors : List Director
  tenders : List Tender
  relationships : List Relationship
  deriving Repr, DecidableEq

/-- `RiskIndicator` from `backend/models.py`. -/
structure RiskIndicator where
  indicator : String
  severity : String
  description : String
  deriving Repr, DecidableEq

/-- `RiskCategory` from `backend/models.py`. -/
inductive RiskCategory where
  | LOW
  | MEDIUM
  | HIGH
  deriving Repr, DecidableEq

/-- An `nx.Graph`: undirected, simple, no attributes kept. -/
structure Graph where
  nodes : List String
  edges : List (String × String)
  deriving Repr, DecidableEq

/-- `G.add_node v`: NetworkX keeps an existing node (re-adding only
updates attributes, which we do not model). -/
def Graph.addNode (g : Graph) (v : String) : Graph :=
  if g.nodes.contains v then g else { g with nodes := g.nodes ++ [v] }

/-- Whether the undirected edge `{u, v}` is present. -/
def Graph.hasEdge (g : Graph) (u v : String) : Bool :=
  g.edges.any (fun e => (e.1 == u && e.2 == v) || (e.1 == v && e.2 == u))

/-- `G.add_edge u v`: NetworkX silently adds missing endpoints as nodes,
and folds a repeated edge (only its attributes are overwritten). -/
def Graph.addEdge (g : Graph) (u v : String) : Graph :=
  let g1 := (g.addNode u).addNode v
  if g1.hasEdge u v then g1 else { g1 with edges := g1.edges ++ [(u, v)] }

/-- `G.degree v` for a simple undirected NetworkX graph: the number of
distinct neighbours, a self-loop counting twice. -/
def Graph.degree (g : Graph) (v : String) : Nat :=
  (g.nodes.filter (fun w => g.hasEdge v w)).length +
    (if g.hasEdge v v then 1 else 0)

/-- `RiskScoringEngine._build_networkx_graph`: every company, director
and tender row becomes a node, then every relationship row becomes an
edge (`G.add_edge` creating any endpoint that is not yet a node). -/
def buildGraph (d : DataTables) : Graph :=
  let g0 : Graph := ⟨[], []⟩
  let g1 := d.companies.foldl (fun g c => g.addNode c.company_id) g0
  let g2 := d.directors.foldl (fun g r => g.addNode r.director_id) g1
  let g3 := d.tenders.foldl (fun g t => g.addNode t.tender_id) g2
  d.relationships.foldl (fun g r => g.addEdge r.source_id r.target_id) g3

/-- `RiskScoringEngine._check_shared_directors`. -/
def check_shared_directors (d : DataTables) (company_id : String) : ℚ :=
  let director_rels := d.relationships.filter
    (fun r => r.target_id == company_id && r.relationship_type == "DIRECTOR_OF")
  if director_rels.length = 0 then 0
  else
    let director_ids := director_rels.map (fun r => r.source_id)
    let shared_companies := (director_ids.map (fun director_id =>
      (d.relationships.filter (fun r =>
        r.source_id == director_id && r.relationship_type == "DIRECTOR_OF" &&
          r.target_id != company_id)).map (fun r => r.target_id))).flatten.dedup
    min ((shared_companies.length : ℚ) / 10) 1

/-- `RiskScoringEngine._check_tender_patterns`. -/
def check_tender_patterns (d : DataTables) (company_id : String) : ℚ :=
  let won_tenders := d.relationships.filter
    (fun r => r.source_id == company_id && r.relationship_type == "WON")
  if won_tenders.length = 0 then 0
  else
    let tender_ids := won_tenders.map (fun r => r.target_id)
    let tender_values := (d.tenders.filter
      (fun t => tender_ids.contains t.tender_id)).map (fun t => t.contract_value)
    if tender_values.length = 0 then 0
    else
      let avg_value := tender_values.sum / (tender_values.length : ℚ)
      let overall_mean :=
        (d.tenders.map (fun t => t.contract_value)).sum / (d.tenders.length : ℚ)
      let value_ratio := if overall_mean > 0 then avg_value / overall_mean else 1
      let win_frequency := (won_tenders.length : ℚ) / (d.tenders.length : ℚ)
      min ((value_ratio - 1) * (1/2) + win_frequency * 2) 1

/-- `RiskScoringEngine._calculate_centrality` (the graph is
`self.graph = _build_networkx_graph()`; the `try` body cannot raise). -/
def calculate_centrality (d : DataTables) (entity_id : String) : ℚ :=
  let g := buildGraph d
  if g.nodes.contains entity_id then
    let degree := g.degree entity_id
    let max_degree :=
      if g.nodes.length > 0 then (g.nodes.map g.degree).foldl Nat.max 0 else 1
    if max_degree > 0 then (degree : ℚ) / (max_degree : ℚ) else 0
  else 0

/-- `RiskScoringEngine._check_shell_indicators`; `none` models the
`IndexError` that `.iloc[0]` raises when the company id is absent. -/
def check_shell_indicators (d : DataTables) (company_id : String) : Option ℚ :=
  match d.companies.find? (fun c => c.company_id == company_id) with
  | none => none
  | some company =>
    let same_address := d.companies.filter
      (fun c => c.address == company.address && c.company_id != company_id)
    let same_year := d.companies.filter
      (fun c => c.registration_year == company.registration_year &&
        c.company_id != company_id)
    let address_score := min ((same_address.length : ℚ) / 5) 1
    let year_score := min ((same_year.length : ℚ) / 10) (1/2)
    some (address_score + year_score)

/-- `RiskScoringEngine._calculate_confidence`. -/
def calculate_confidence (d : DataTables) (entity_id : String) : ℚ :=
  let g := buildGraph d
  if g.nodes.contains entity_id then
    min ((1/2 : ℚ) + (g.degree entity_id : ℚ) / 20) 1
  else 3/10

/-- `RiskScoringEngine.calculate_company_risk_score`; `none` models the
`IndexError` raised by `.iloc[0]` when the id is not in the companies
table.  Weights 0.25, 0.30, 0.20, 0.25 and thresholds 0.3/0.6, 0.4/0.7,
0.5, 0.5 are written as exact rationals. -/
def calculate_company_risk_score (d : DataTables) (company_id : String) :
    Option (ℚ × ℚ × List RiskIndicator) :=
  match d.companies.find? (fun c => c.company_id == company_id) with
  | none => none
  | some _ =>
    let shared_director_score := check_shared_directors d company_id
    let indicators1 : List RiskIndicator :=
      if shared_director_score > 3/10 then
        [{ indicator := "Shared Directors",
           severity := if shared_director_score > 3/5 then "High" else "Medium",
           description := "Shares directors with " ++
             toString (shared_director_score * 10).floor ++ " competing bidders" }]
      else []
    let win_pattern_score := check_tender_patterns d company_id
    let indicators2 : List RiskIndicator :=
      if win_pattern_score > 2/5 then
        [{ indicator := "Suspicious Win Pattern",
           severity := if win_pattern_score > 7/10 then "High" else "Medium",
           description := "Consecutive high-value tender wins above network mean" }]
      else []
    let centrality_score := calculate_centrality d company_id
    let indicators3 : List RiskIndicator :=
      if centrality_score > 1/2 then
        [{ indicator := "High Network Centrality",
           severity := "Medium",
           description := "Dense cluster centrality indicating potential collusion" }]
      else []
    let shell_score := (check_shell_indicators d company_id).getD 0
    let indicators4 : List RiskIndicator :=
      if shell_score > 1/2 then
        [{ indicator := "Shell Company Indicators",
           severity := "High",
           description := "Shared address and registration year with multiple entities" }]
      else []
    let risk_factors : List ℚ :=
      [shared_director_score * (1/4), win_pattern_score * (3/10),
       centrality_score * (1/5), shell_score * (1/4)]
    let risk_score := min risk_factors.sum 1
    let confidence := calculate_confidence d company_id
    some (risk_score, confidence,
      indicators1 ++ indicators2 ++ indicators3 ++ indicators4)

/-- `RiskScoringEngine.get_risk_category`. -/
def get_risk_category (risk_score : ℚ) : RiskCategory :=
  if risk_score ≥ 7/10 then .HIGH
  else if risk_score ≥ 2/5 then .MEDIUM
  else .LOW

/-- `self.companies[self.companies['company_id'] == m]['fraud_label'].iloc[0]`:
the fraud label of the first matching row, `none` for the `IndexError`. -/
def fraud_label_of (d : DataTables) (m : String) : Option Int :=
  (d.companies.find? (fun c => c.company_id == m)).map (fun c => c.fraud_label)

/-- Python's `m.startswith('COMP_')`: the id's characters begin with
the characters of `COMP_` (stated on the character list, which the
kernel can compute). -/
def startsWithCOMP (m : String) : Bool :=
  ("COMP_" : String).data.isPrefixOf m.data

/-- The filtering loop of `detect_fraud_clusters`, applied to the list
of communities: keep a community's company-prefixed members when there
are at least 3 of them and their fraud concentration exceeds 1/2;
`none` models the `IndexError` raised when a counted member is missing
from the companies table. -/
def cluster_filter (d : DataTables) : List (List String) → Option (List (List String))
  | [] => some []
  | members :: rest =>
    let company_members := members.filter startsWithCOMP
    if company_members.length < 3 then cluster_filter d rest
    else
      match company_members.mapM (fraud_label_of d) with
      | none => none
      | some labels =>
        let fraud_count := (labels.filter (fun l => l == 1)).length
        if (fraud_count : ℚ) / (company_members.length : ℚ) > 1/2 then
          (cluster_filter d rest).map (fun fc => company_members :: fc)
        else cluster_filter d rest

/-- `RiskScoringEngine.detect_fraud_clusters`.  The Louvain partition
`community_louvain.best_partition(self.graph)` is an external,
randomized library call; it enters here as the parameter `partition`
(node ↦ community id).  Grouping `partition.items()` by community id is
modelled by grouping the graph's nodes by their image under
`partition`, in first-occurrence order. -/
def detect_fraud_clusters (d : DataTables) (partition : String → Nat) :
    Option (List (List String)) :=
  let g := buildGraph d
  let comm_ids := (g.nodes.map partition).dedup
  let communities := comm_ids.map
    (fun cid => g.nodes.filter (fun n => partition n == cid))
  cluster_filter d communities

/-! Auxiliary definitions used to state the specification's claims. -/

/-- Clamping to an interval, as the specification words it
(`clamp(x, lo, hi)`). -/
def clamp (x lo hi : ℚ) : ℚ := max lo (min x hi)

/-- Rank of a risk category, used to state monotonicity (Low < Medium <
High). -/
def RiskCategory.rank : RiskCategory → Nat
  | .LOW => 0
  | .MEDIUM => 1
  | .HIGH => 2

/-! Concrete datasets used for counterexamples, scenarios and witnesses. -/

/-- A dataset on which the win-pattern factor is negative: `COMP_A` wins
the single zero-value tender `TEND_1` out of ten tenders, and eight
directors of `COMP_B` push the maximum degree up so that centrality
cannot compensate. -/
def dNeg : DataTables :=
  { companies := [⟨"COMP_A", "addrA", 2000, 0⟩, ⟨"COMP_B", "addrB", 2001, 0⟩]
  , directors := [⟨"DIR_1"⟩, ⟨"DIR_2"⟩, ⟨"DIR_3"⟩, ⟨"DIR_4"⟩,
      ⟨"DIR_5"⟩, ⟨"DIR_6"⟩, ⟨"DIR_7"⟩, ⟨"DIR_8"⟩]
  , tenders := [⟨"TEND_1", 0⟩, ⟨"TEND_2", 100⟩, ⟨"TEND_3", 100⟩,
      ⟨"TEND_4", 100⟩, ⟨"TEND_5", 100⟩, ⟨"TEND_6", 100⟩, ⟨"TEND_7", 100⟩,
      ⟨"TEND_8", 100⟩, ⟨"TEND_9", 100⟩, ⟨"TEND_10", 100⟩]
  , relationships := [⟨"COMP_A", "TEND_1", "WON"⟩,
      ⟨"DIR_1", "COMP_B", "DIRECTOR_OF"⟩, ⟨"DIR_2", "COMP_B", "DIRECTOR_OF"⟩,
      ⟨"DIR_3", "COMP_B", "DIRECTOR_OF"⟩, ⟨"DIR_4", "COMP_B", "DIRECTOR_OF"⟩,
      ⟨"DIR_5", "COMP_B", "DIRECTOR_OF"⟩, ⟨"DIR_6", "COMP_B", "DIRECTOR_OF"⟩,
      ⟨"DIR_7", "COMP_B", "DIRECTOR_OF"⟩, ⟨"DIR_8", "COMP_B", "DIRECTOR_OF"⟩] }

/-- The spec's shared-director scenario: `COMP_A`, `COMP_B`, `COMP_C`
share the single director `DIR_X`, who has no other links. -/
def dABC : DataTables :=
  { companies := [⟨"COMP_A", "a1", 1990, 0⟩, ⟨"COMP_B", "a2", 1991, 0⟩,
      ⟨"COMP_C", "a3", 1992, 0⟩]
  , directors := [⟨"DIR_X"⟩]
  , tenders := []
  , relationships := [⟨"DIR_X", "COMP_A", "DIRECTOR_OF"⟩,
      ⟨"DIR_X", "COMP_B", "DIRECTOR_OF"⟩, ⟨"DIR_X", "COMP_C", "DIRECTOR_OF"⟩] }

/-- The spec's shell scenario: five companies share the identical
address string and no two share a registration year. -/
def dFive : DataTables :=
  { companies := [⟨"COMP_1", "shared addr", 1990, 0⟩,
      ⟨"COMP_2", "shared addr", 1991, 0⟩, ⟨"COMP_3", "shared addr", 1992, 0⟩,
      ⟨"COMP_4", "shared addr", 1993, 0⟩, ⟨"COMP_5", "shared addr", 1994, 0⟩]
  , directors := [], tenders := [], relationships := [] }

/-- A dataset whose single relationship is a dangling edge: it
references `TEND_GHOST`, which is absent from every entity table. -/
def dDangling : DataTables :=
  { companies := [⟨"COMP_A", "a", 2000, 0⟩], directors := [], tenders := []
  , relationships := [⟨"COMP_A", "TEND_GHOST", "WON"⟩] }

/-- A dataset with three fraud-labelled companies, used as the cluster
witness (with the constant partition every node shares a community). -/
def dClu : DataTables :=
  { companies := [⟨"COMP_1", "a", 2000, 1⟩, ⟨"COMP_2", "b", 2001, 1⟩,
      ⟨"COMP_3", "c", 2002, 1⟩]
  , directors := [], tenders := [], relationships := [] }

/-! Basic bounds on the individual factors. -/

theorem check_shared_directors_nonneg (d : DataTables) (cid : String) :
    0 ≤ check_shared_directors d cid := by
  unfold check_shared_directors
  dsimp only
  split
  · exact le_refl 0
  · exact le_min (by positivity) (by norm_num)

theorem check_shared_directors_le_one (d : DataTables) (cid : String) :
    check_shared_directors d cid ≤ 1 := by
  unfold check_shared_directors
  dsimp only
  split
  · norm_num
  · exact min_le_right _ _

theorem calculate_centrality_nonneg (d : DataTables) (eid : String) :
    0 ≤ calculate_centrality d eid := by
  unfold calculate_centrality
  dsimp only
  repeat' split
  all_goals positivity

theorem shell_getD_nonneg (d : DataTables) (cid : String) :
    0 ≤ (check_shell_indicators d cid).getD 0 := by
  unfold check_shell_indicators
  cases d.companies.find? (fun c => c.company_id == cid) with
  | none => exact le_refl 0
  | some company =>
    simp only [Option.getD_some]
    have h1 : (0:ℚ) ≤ min ((List.length (d.companies.filter fun c =>
        c.address == company.address && c.company_id != cid) : ℚ) / 5) 1 :=
      le_min (by positivity) (by norm_num)
    have h2 : (0:ℚ) ≤ min ((List.length (d.companies.filter fun c =>
        c.registration_year == company.registration_year &&
          c.company_id != cid) : ℚ) / 10) (1/2) :=
      le_min (by positivity) (by norm_num)
    linarith

theorem check_tender_patterns_le_one (d : DataTables) (cid : String) :
    check_tender_patterns d cid ≤ 1 := by
  unfold check_tender_patterns
  dsimp only
  split
  · norm_num
  · split
    · norm_num
    · exact min_le_right _ _

/-! Node-membership lemmas about graph construction. -/

theorem addNode_mem_self (g : Graph) (v : String) : v ∈ (g.addNode v).nodes := by
  unfold Graph.addNode
  split
  · exact List.mem_of_elem_eq_true ‹_›
  · simp

theorem addNode_mem_mono (g : Graph) (u v : String) (h : v ∈ g.nodes) :
    v ∈ (g.addNode u).nodes := by
  unfold Graph.addNode
  split
  · exact h
  · simp [h]

theorem addEdge_mem_mono (g : Graph) (a b v : String) (h : v ∈ g.nodes) :
    v ∈ (g.addEdge a b).nodes := by
  unfold Graph.addEdge
  dsimp only
  split
  · exact addNode_mem_mono _ _ _ (addNode_mem_mono _ _ _ h)
  · exact addNode_mem_mono _ _ _ (addNode_mem_mono _ _ _ h)

theorem addEdge_mem_left (g : Graph) (a b : String) : a ∈ (g.addEdge a b).nodes := by
  unfold Graph.addEdge
  dsimp only
  split
  · exact addNode_mem_mono _ _ _ (addNode_mem_self _ _)
  · exact addNode_mem_mono _ _ _ (addNode_mem_self _ _)

theorem addEdge_mem_right (g : Graph) (a b : String) : b ∈ (g.addEdge a b).nodes := by
  unfold Graph.addEdge
  dsimp only
  split
  · exact addNode_mem_self _ _
  · exact addNode_mem_self _ _

theorem foldl_addEdge_mem_mono (l : List Relationship) (g : Graph) (v : String)
    (h : v ∈ g.nodes) :
    v ∈ (l.foldl (fun g r => g.addEdge r.source_id r.target_id) g).nodes := by
  induction l generalizing g with
  | nil => exact h
  | cons a l ih => exact ih _ (addEdge_mem_mono _ _ _ _ h)

theorem foldl_addEdge_mem (l : List Relationship) (g : Graph) (r : Relationship)
    (h : r ∈ l) :
    r.source_id ∈ (l.foldl (fun g r => g.addEdge r.source_id r.target_id) g).nodes ∧
    r.target_id ∈ (l.foldl (fun g r => g.addEdge r.source_id r.target_id) g).nodes := by
  induction l generalizing g with
  | nil => cases h
  | cons a l ih =>
    simp only [List.foldl_cons]
    rcases List.mem_cons.mp h with rfl | h2
    · exact ⟨foldl_addEdge_mem_mono _ _ _ (addEdge_mem_left _ _ _),
        foldl_addEdge_mem_mono _ _ _ (addEdge_mem_right _ _ _)⟩
    · exact ih _ h2

theorem foldl_addNode_mem_mono {α : Type} (l : List α) (f : α → String) (g : Graph)
    (v : String) (h : v ∈ g.nodes) :
    v ∈ (l.foldl (fun g x => g.addNode (f x)) g).nodes := by
  induction l generalizing g with
  | nil => exact h
  | cons a l ih => exact ih _ (addNode_mem_mono _ _ _ h)

theorem foldl_addNode_mem {α : Type} (l : List α) (f : α → String) (g : Graph)
    (x : α) (h : x ∈ l) :
    f x ∈ (l.foldl (fun g x => g.addNode (f x)) g).nodes := by
  induction l generalizing g with
  | nil => cases h
  | cons a l ih =>
    simp only [List.foldl_cons]
    rcases List.mem_cons.mp h with rfl | h2
    · exact foldl_addNode_mem_mono _ _ _ _ (addNode_mem_self _ _)
    · exact ih _ h2

theorem buildGraph_mem_company (d : DataTables) (c : Company)
    (h : c ∈ d.companies) : c.company_id ∈ (buildGraph d).nodes := by
  unfold buildGraph
  dsimp only
  exact foldl_addEdge_mem_mono _ _ _ (foldl_addNode_mem_mono _ _ _ _
    (foldl_addNode_mem_mono _ _ _ _ (foldl_addNode_mem _ _ _ _ h)))

theorem buildGraph_mem_director (d : DataTables) (r : Director)
    (h : r ∈ d.directors) : r.director_id ∈ (buildGraph d).nodes := by
  unfold buildGraph
  dsimp only
  exact foldl_addEdge_mem_mono _ _ _ (foldl_addNode_mem_mono _ _ _ _
    (foldl_addNode_mem _ _ _ _ h))

theorem buildGraph_mem_tender (d : DataTables) (t : Tender)
    (h : t ∈ d.tenders) : t.tender_id ∈ (buildGraph d).nodes := by
  unfold buildGraph
  dsimp only
  exact foldl_addEdge_mem_mono _ _ _ (foldl_addNode_mem _ _ _ _ h)

/-- C3 counterexample: `dDangling`'s single relationship references
`TEND_GHOST`, which is in no entity table, yet graph construction
succeeds — the dangling endpoint is silently created as a node — and
the engine stays fully usable: scoring `COMP_A` returns a normal
result. -/
theorem C3_counterexample :
    dDangling.tenders = [] ∧ dDangling.directors = [] ∧
    "TEND_GHOST" ∈ (buildGraph dDangling).nodes ∧
    (calculate_company_risk_score dDangling "COMP_A").isSome = true := by
  refine ⟨rfl, rfl, by decide, ?_⟩
  rfl

/-- C3 amended: graph construction never fails; every relationship
row's source and target ids end up as nodes of the built graph, a
missing endpoint being silently added by `add_edge` rather than
rejected. -/
theorem C3_amended (d : DataTables) (r : Relationship)
    (h : r ∈ d.relationships) :
    r.source_id ∈ (buildGraph d).nodes ∧ r.target_id ∈ (buildGraph d).nodes := by
  unfold buildGraph
  dsimp only
  exact foldl_addEdge_mem _ _ _ h

/-- Witness for C3 amended at `dDangling`'s dangling relationship. -/
theorem C3_amended_witness :
    ("COMP_A" : String) ∈ (buildGraph dDangling).nodes ∧
    ("TEND_GHOST" : String) ∈ (buildGraph dDangling).nodes :=
  C3_amended dDangling ⟨"COMP_A", "TEND_GHOST", "WON"⟩ (by decide)

/-- C10: every row of the companies, directors and tenders tables
becomes a graph node; consequently the confidence of any entity id is
either exactly 3/10 or lies in `[1/2, 1]` — never strictly between
3/10 and 1/2 — and the confidence of every company id present in the
companies table is at least 1/2. -/
theorem C10_node_coverage (d : DataTables) (eid : String) :
    (∀ c ∈ d.companies, c.company_id ∈ (buildGraph d).nodes) ∧
    (∀ r ∈ d.directors, r.director_id ∈ (buildGraph d).nodes) ∧
    (∀ t ∈ d.tenders, t.tender_id ∈ (buildGraph d).nodes) ∧
    (calculate_confidence d eid = 3/10 ∨
      (1/2 ≤ calculate_confidence d eid ∧ calculate_confidence d eid ≤ 1)) ∧
    (¬ (3/10 < calculate_confidence d eid ∧ calculate_confidence d eid < 1/2)) ∧
    (∀ c ∈ d.companies, 1/2 ≤ calculate_confidence d c.company_id) := by
  have key : ∀ v : String, v ∈ (buildGraph d).nodes →
      1/2 ≤ calculate_confidence d v ∧ calculate_confidence d v ≤ 1 := by
    intro v hv
    have hc : (buildGraph d).nodes.contains v = true := List.elem_eq_true_of_mem hv
    have hdg : (0:ℚ) ≤ ((buildGraph d).degree v : ℚ) / 20 := by positivity
    unfold calculate_confidence
    dsimp only
    rw [if_pos hc]
    exact ⟨le_min (by linarith) (by norm_num), min_le_right _ _⟩
  have dich : calculate_confidence d eid = 3/10 ∨
      (1/2 ≤ calculate_confidence d eid ∧ calculate_confidence d eid ≤ 1) := by
    by_cases hc : (buildGraph d).nodes.contains eid = true
    · exact Or.inr (key eid (List.mem_of_elem_eq_true hc))
    · left
      unfold calculate_confidence
      dsimp only
      rw [if_neg hc]
  refine ⟨fun c hc => buildGraph_mem_company d c hc,
    fun r hr => buildGraph_mem_director d r hr,
    fun t ht => buildGraph_mem_tender d t ht, dich, ?_, ?_⟩
  · rcases dich with h | ⟨h1, _⟩
    · rw [h]
      intro hcon
      exact absurd hcon.1 (by norm_num)
    · intro hcon
      linarith [hcon.2]
  · intro c hc
    exact (key c.company_id (buildGraph_mem_company d c hc)).1

/-- Witness for C10 at `dABC` and its first company row. -/
theorem C10_node_coverage_witness :
    ("COMP_A" : String) ∈ (buildGraph dABC).nodes ∧
    ("DIR_X" : String) ∈ (buildGraph dABC).nodes ∧
    (calculate_confidence dABC "COMP_Z" = 3/10 ∨
      (1/2 ≤ calculate_confidence dABC "COMP_Z" ∧
        calculate_confidence dABC "COMP_Z" ≤ 1)) ∧
    1/2 ≤ calculate_confidence dABC "COMP_A" :=
  ⟨(C10_node_coverage dABC "COMP_Z").1 ⟨"COMP_A", "a1", 1990, 0⟩ (by decide),
   (C10_node_coverage dABC "COMP_Z").2.1 ⟨"DIR_X"⟩ (by decide),
   (C10_node_coverage dABC "COMP_Z").2.2.2.1,
   (C10_node_coverage dABC "COMP_A").2.2.2.2.2 ⟨"COMP_A", "a1", 1990, 0⟩
     (by decide)⟩

/-- Directors of a company, as the specification words it: the sources
of `DIRECTOR_OF` relationship rows targeting the company. -/
def directors_of (d : DataTables) (cid : String) : List String :=
  (d.relationships.filter
    (fun r => r.target_id == cid && r.relationship_type == "DIRECTOR_OF")).map
    (fun r => r.source_id)

/-- The distinct other companies sharing a director with the target, as
claim C6 words it: targets other than the target company of
`DIRECTOR_OF` rows whose source is one of the target's directors. -/
def spec_shared_companies (d : DataTables) (cid : String) : List String :=
  ((d.relationships.filter (fun r =>
      (directors_of d cid).contains r.source_id &&
        r.relationship_type == "DIRECTOR_OF" && r.target_id != cid)).map
    (fun r => r.target_id)).dedup

theorem mem_shared_iff (d : DataTables) (cid x : String) :
    (x ∈ (((d.relationships.filter
        (fun r => r.target_id == cid && r.relationship_type == "DIRECTOR_OF")).map
          (fun r => r.source_id)).map (fun director_id =>
        (d.relationships.filter (fun r =>
          r.source_id == director_id && r.relationship_type == "DIRECTOR_OF" &&
            r.target_id != cid)).map (fun r => r.target_id))).flatten) ↔
    x ∈ ((d.relationships.filter (fun r =>
        (directors_of d cid).contains r.source_id &&
          r.relationship_type == "DIRECTOR_OF" && r.target_id != cid)).map
      (fun r => r.target_id)) := by
  simp only [List.mem_flatten, List.mem_map, List.mem_filter, directors_of,
    Bool.and_eq_true, beq_iff_eq, bne_iff_ne, List.elem_iff]
  constructor
  · rintro ⟨l, ⟨did, ⟨r1, ⟨hr1, hr1t, hr1ty⟩, hsrc⟩, rfl⟩, hx⟩
    simp only [List.mem_map, List.mem_filter, Bool.and_eq_true, beq_iff_eq,
      bne_iff_ne] at hx
    obtain ⟨r2, ⟨hr2, ⟨⟨hs2, hty2⟩, hne2⟩⟩, hx2⟩ := hx
    exact ⟨r2, ⟨hr2, ⟨⟨⟨r1, ⟨hr1, hr1t, hr1ty⟩, hsrc.trans hs2.symm⟩, hty2⟩,
      hne2⟩⟩, hx2⟩
  · rintro ⟨r2, ⟨hr2, ⟨⟨⟨r1, ⟨hr1, ht1, hty1⟩, hsrc⟩, hty2⟩, hne2⟩⟩, hx2⟩
    refine ⟨_, ⟨r2.source_id, ⟨r1, ⟨hr1, ht1, hty1⟩, hsrc⟩, rfl⟩, ?_⟩
    simp only [List.mem_map, List.mem_filter, Bool.and_eq_true, beq_iff_eq,
      bne_iff_ne]
    exact ⟨r2, ⟨hr2, ⟨⟨rfl, hty2⟩, hne2⟩⟩, hx2⟩

theorem dedup_length_eq_of_mem_iff (l1 l2 : List String)
    (h : ∀ x, x ∈ l1 ↔ x ∈ l2) : l1.dedup.length = l2.dedup.length := by
  have h1 : l1.dedup.toFinset = l2.dedup.toFinset := by
    ext x
    simp [List.mem_dedup, h x]
  calc l1.dedup.length = l1.dedup.toFinset.card :=
        (List.toFinset_card_of_nodup l1.nodup_dedup).symm
    _ = l2.dedup.toFinset.card := by rw [h1]
    _ = l2.dedup.length := List.toFinset_card_of_nodup l2.nodup_dedup

/-- C6: the shared-directors factor equals `min(n/10, 1)` where `n` is
the number of distinct other companies linked via `DIRECTOR_OF` to a
director of the target; a company with zero `DIRECTOR_OF` edges gets
exactly 0; and in the `COMP_A`/`COMP_B`/`COMP_C` single-shared-director
scenario the factor of `COMP_A` is exactly 1/5 = 0.2. -/
theorem C6_shared_directors (d : DataTables) (cid : String) :
    (check_shared_directors d cid =
      min (((spec_shared_companies d cid).length : ℚ) / 10) 1) ∧
    (directors_of d cid = [] → check_shared_directors d cid = 0) ∧
    check_shared_directors dABC "COMP_A" = 1/5 := by
  refine ⟨?_, ?_, ?_⟩
  · unfold check_shared_directors
    dsimp only
    split
    · rename_i h
      have hfe : d.relationships.filter
          (fun r => r.target_id == cid && r.relationship_type == "DIRECTOR_OF") =
            [] := List.length_eq_zero.mp h
      unfold spec_shared_companies directors_of
      rw [hfe]
      simp
    · have hl := dedup_length_eq_of_mem_iff _ _ (mem_shared_iff d cid)
      unfold spec_shared_companies
      rw [← hl]
  · intro h
    unfold directors_of at h
    have hfe := List.map_eq_nil_iff.mp h
    unfold check_shared_directors
    dsimp only
    rw [hfe]
    simp
  · norm_num +decide [check_shared_directors, dABC]

/-- Witness for C6's zero-director case: `COMP_1` in `dClu` has no
`DIRECTOR_OF` edge and its shared-directors factor is exactly 0. -/
theorem C6_shared_directors_witness :
    check_shared_directors dClu "COMP_1" = 0 :=
  (C6_shared_directors dClu "COMP_1").2.1 (by decide)

/-- Win-pattern factor as claim C2 (amended) words it: the mean value
of the tenders the company won over the mean value of all tenders
(ratio 1 when the overall mean is not positive), combined with the win
frequency, capped above at 1; zero wins (or wins matching no tender
row) give 0. -/
def spec_win_pattern (d : DataTables) (cid : String) : ℚ :=
  let wins := d.relationships.filter
    (fun r => r.source_id == cid && r.relationship_type == "WON")
  if wins.length = 0 then 0
  else
    let won_values := (d.tenders.filter (fun t => d.relationships.any (fun r =>
        r.source_id == cid && r.relationship_type == "WON" &&
          r.target_id == t.tender_id))).map (fun t => t.contract_value)
    if won_values.length = 0 then 0
    else
      let avg_value := won_values.sum / (won_values.length : ℚ)
      let overall_mean :=
        (d.tenders.map (fun t => t.contract_value)).sum / (d.tenders.length : ℚ)
      let value_ratio := if overall_mean > 0 then avg_value / overall_mean else 1
      let win_frequency := (wins.length : ℚ) / (d.tenders.length : ℚ)
      min ((value_ratio - 1) * (1/2) + win_frequency * 2) 1

theorem contains_eq_any (d : DataTables) (cid : String) (t : Tender) :
    ((d.relationships.filter
        (fun r => r.source_id == cid && r.relationship_type == "WON")).map
      (fun r => r.target_id)).contains t.tender_id =
    d.relationships.any (fun r =>
      r.source_id == cid && r.relationship_type == "WON" &&
        r.target_id == t.tender_id) := by
  rw [Bool.eq_iff_iff]
  simp only [List.elem_iff, List.mem_map, List.mem_filter, List.any_eq_true,
    Bool.and_eq_true, beq_iff_eq]
  aesop

/-- C2 amended: the win-pattern factor equals the claim's formula with
`min(expr, 1)` in place of `clamp(expr, 0, 1)` — there is no lower
clamp, so the factor can be negative — and a company with zero wins
gets exactly 0. -/
theorem C2_win_pattern (d : DataTables) (cid : String) :
    (check_tender_patterns d cid = spec_win_pattern d cid) ∧
    ((d.relationships.filter (fun r =>
        r.source_id == cid && r.relationship_type == "WON")).length = 0 →
      check_tender_patterns d cid = 0) ∧
    check_tender_patterns d cid ≤ 1 := by
  refine ⟨?_, ?_, check_tender_patterns_le_one d cid⟩
  · unfold check_tender_patterns spec_win_pattern
    dsimp only
    rw [List.filter_congr (fun t _ => (contains_eq_any d cid t))]
  · intro h
    unfold check_tender_patterns
    dsimp only
    rw [if_pos h]

/-- Witness for C2 amended: `COMP_1` in `dClu` has no `WON` edge and
its win-pattern factor is exactly 0 (and agrees with the formula). -/
theorem C2_win_pattern_witness :
    check_tender_patterns dClu "COMP_1" = spec_win_pattern dClu "COMP_1" ∧
    check_tender_patterns dClu "COMP_1" = 0 :=
  ⟨(C2_win_pattern dClu "COMP_1").1,
   (C2_win_pattern dClu "COMP_1").2.1 (by decide)⟩

/-- C2 counterexample: on `dNeg`, `COMP_A` wins the one zero-value
tender out of ten, so the win-pattern expression evaluates to
`(0 − 1)·0.5 + (1/10)·2 = −3/10`; the code returns −3/10 — negative,
hence not clamped to `[0, 1]` — while the claim's
`clamp(expr, 0, 1)` would give 0. -/
theorem C2_counterexample :
    check_tender_patterns dNeg "COMP_A" = -3/10 ∧
    check_tender_patterns dNeg "COMP_A" < 0 ∧
    clamp (-3/10) 0 1 = 0 := by
  have he : check_tender_patterns dNeg "COMP_A" = -3/10 := by
    norm_num +decide [check_tender_patterns, dNeg]
  refine ⟨he, by rw [he]; norm_num, by unfold clamp; norm_num⟩

/-- The weighted sum of the four factors with the claim's weights
0.25, 0.30, 0.20, 0.25. -/
def spec_weighted_sum (d : DataTables) (cid : String) : ℚ :=
  1/4 * check_shared_directors d cid + 3/10 * check_tender_patterns d cid +
    1/5 * calculate_centrality d cid +
    1/4 * (check_shell_indicators d cid).getD 0

/-- C1 amended: the risk score returned by
`calculate_company_risk_score` equals `min(weighted sum, 1)` — capped
above at 1 but not clamped below — hence it can be negative; whenever
the win-pattern factor is nonnegative (the other three factors always
are) the score does equal the claim's `clamp(weighted sum, 0, 1)` and
lies in `[0, 1]`. -/
theorem C1_risk_score (d : DataTables) (cid : String) (s c : ℚ)
    (inds : List RiskIndicator)
    (h : calculate_company_risk_score d cid = some (s, c, inds)) :
    s = min (spec_weighted_sum d cid) 1 ∧ s ≤ 1 ∧
    (0 ≤ check_tender_patterns d cid →
      s = clamp (spec_weighted_sum d cid) 0 1 ∧ 0 ≤ s) := by
  have hsd := check_shared_directors_nonneg d cid
  have hcc := calculate_centrality_nonneg d cid
  have hsh := shell_getD_nonneg d cid
  unfold calculate_company_risk_score at h
  cases hf : d.companies.find? (fun c => c.company_id == cid) with
  | none => rw [hf] at h; exact absurd h (by simp)
  | some comp =>
    rw [hf] at h
    dsimp only at h
    simp only [Option.some.injEq, Prod.mk.injEq] at h
    obtain ⟨hs, -, -⟩ := h
    subst hs
    simp only [List.sum_cons, List.sum_nil, add_zero]
    have hsum : check_shared_directors d cid * (1/4) +
        (check_tender_patterns d cid * (3/10) +
          (calculate_centrality d cid * (1/5) +
            (check_shell_indicators d cid).getD 0 * (1/4))) =
        spec_weighted_sum d cid := by
      unfold spec_weighted_sum
      ring
    rw [hsum]
    refine ⟨rfl, min_le_right _ _, fun hw => ?_⟩
    have t1 := mul_nonneg (by norm_num : (0:ℚ) ≤ 1/4) hsd
    have t2 := mul_nonneg (by norm_num : (0:ℚ) ≤ 3/10) hw
    have t3 := mul_nonneg (by norm_num : (0:ℚ) ≤ 1/5) hcc
    have t4 := mul_nonneg (by norm_num : (0:ℚ) ≤ 1/4) hsh
    have hX : 0 ≤ spec_weighted_sum d cid := by
      unfold spec_weighted_sum
      linarith
    have h0 : 0 ≤ min (spec_weighted_sum d cid) 1 :=
      le_min hX (by norm_num)
    exact ⟨(max_eq_right h0).symm, h0⟩

/-- Full evaluation of the engine on `dFive`'s first company: the
shell factor 4/5 is the only nonzero one, so the score is
`min(4/5 · 1/4, 1) = 1/5`, and the only indicator is the High-severity
shell indicator. -/
theorem dFive_score_eval :
    calculate_company_risk_score dFive "COMP_1" = some (1/5, 1/2,
      [{ indicator := "Shell Company Indicators", severity := "High",
         description := "Shared address and registration year with multiple entities" }]) := by
  have h1 : check_shared_directors dFive "COMP_1" = 0 := by
    norm_num +decide [check_shared_directors, dFive]
  have h2 : check_tender_patterns dFive "COMP_1" = 0 := by
    norm_num +decide [check_tender_patterns, dFive]
  have hcon : (buildGraph dFive).nodes.contains "COMP_1" = true := by decide
  have hdeg : (buildGraph dFive).degree "COMP_1" = 0 := by decide
  have hmax : ((buildGraph dFive).nodes.map (buildGraph dFive).degree).foldl
      Nat.max 0 = 0 := by decide
  have hlen : (buildGraph dFive).nodes.length = 5 := by decide
  have h3 : calculate_centrality dFive "COMP_1" = 0 := by
    unfold calculate_centrality
    dsimp only
    simp only [hcon, hlen, hdeg, hmax, if_true]
    norm_num
  have h4 : check_shell_indicators dFive "COMP_1" = some (4/5) := by
    norm_num +decide [check_shell_indicators, dFive]
  have h5 : calculate_confidence dFive "COMP_1" = 1/2 := by
    unfold calculate_confidence
    dsimp only
    simp only [hcon, hdeg, if_true]
    norm_num
  have hf : dFive.companies.find? (fun c => c.company_id == "COMP_1") =
      some ⟨"COMP_1", "shared addr", 1990, 0⟩ := by decide
  unfold calculate_company_risk_score
  rw [hf]
  dsimp only
  rw [h1, h2, h3, h4, h5]
  norm_num

/-- Witness for C1 amended at `dFive`, whose first company scores
exactly 1/5 with a nonnegative win-pattern factor. -/
theorem C1_risk_score_witness :
    (1/5 : ℚ) = min (spec_weighted_sum dFive "COMP_1") 1 ∧
    (1/5 : ℚ) = clamp (spec_weighted_sum dFive "COMP_1") 0 1 ∧
    (0 : ℚ) ≤ 1/5 := by
  have h := C1_risk_score dFive "COMP_1" (1/5) (1/2)
    [{ indicator := "Shell Company Indicators", severity := "High",
       description := "Shared address and registration year with multiple entities" }]
    dFive_score_eval
  have hw : (0:ℚ) ≤ check_tender_patterns dFive "COMP_1" := by
    norm_num +decide [check_tender_patterns, dFive]
  exact ⟨h.1, (h.2.2 hw).1, (h.2.2 hw).2⟩

/-- C1 counterexample: on `dNeg` the engine returns risk score
−13/200 for `COMP_A` — negative, so outside `[0, 1]` and different
from the claim's clamped weighted sum, which is 0. -/
theorem C1_counterexample :
    calculate_company_risk_score dNeg "COMP_A" = some (-13/200, 11/20, []) ∧
    (-13/200 : ℚ) < 0 ∧
    clamp (spec_weighted_sum dNeg "COMP_A") 0 1 = 0 := by
  have h1 : check_shared_directors dNeg "COMP_A" = 0 := by
    norm_num +decide [check_shared_directors, dNeg]
  have h2 : check_tender_patterns dNeg "COMP_A" = -3/10 := by
    norm_num +decide [check_tender_patterns, dNeg]
  have hcon : (buildGraph dNeg).nodes.contains "COMP_A" = true := by decide
  have hdeg : (buildGraph dNeg).degree "COMP_A" = 1 := by decide
  have hmax : ((buildGraph dNeg).nodes.map (buildGraph dNeg).degree).foldl
      Nat.max 0 = 8 := by decide
  have hlen : (buildGraph dNeg).nodes.length = 20 := by decide
  have h3 : calculate_centrality dNeg "COMP_A" = 1/8 := by
    unfold calculate_centrality
    dsimp only
    simp only [hcon, hlen, hdeg, hmax, if_true]
    norm_num
  have h4 : check_shell_indicators dNeg "COMP_A" = some 0 := by
    norm_num +decide [check_shell_indicators, dNeg]
  have h5 : calculate_confidence dNeg "COMP_A" = 11/20 := by
    unfold calculate_confidence
    dsimp only
    simp only [hcon, hdeg, if_true]
    norm_num
  have hf : dNeg.companies.find? (fun c => c.company_id == "COMP_A") =
      some ⟨"COMP_A", "addrA", 2000, 0⟩ := by decide
  refine ⟨?_, by norm_num, ?_⟩
  · unfold calculate_company_risk_score
    rw [hf]
    dsimp only
    rw [h1, h2, h3, h4, h5]
    norm_num
  · unfold clamp spec_weighted_sum
    rw [h1, h2, h3, h4]
    norm_num

theorem mapM_filter_count (d : DataTables) :
    ∀ (l : List String) (labels : List Int),
      l.mapM (fraud_label_of d) = some labels →
      (labels.filter (fun x => x == (1:Int))).length =
        (l.filter (fun m => fraud_label_of d m == some 1)).length := by
  intro l
  induction l with
  | nil =>
    intro labels h
    simp only [List.mapM_nil, Option.pure_def, Option.some.injEq] at h
    subst h
    simp
  | cons a l ih =>
    intro labels h
    rw [List.mapM_cons] at h
    cases hfa : fraud_label_of d a with
    | none => rw [hfa] at h; simp at h
    | some b =>
      rw [hfa] at h
      cases hml : l.mapM (fraud_label_of d) with
      | none => rw [hml] at h; simp at h
      | some bs =>
        rw [hml] at h
        simp only [Option.pure_def, Option.bind_eq_bind, Option.some_bind,
          Option.some.injEq] at h
        subst h
        have hbs := ih bs hml
        by_cases hb : b == (1:Int)
        · have hfa1 : (fraud_label_of d a == some 1) = true := by
            rw [hfa]
            simp only [beq_iff_eq] at hb ⊢
            rw [hb]
          simp only [List.filter_cons, hb, hfa1, if_true]
          simp [hbs]
        · have hfa1 : (fraud_label_of d a == some 1) = false := by
            rw [hfa]
            simp only [beq_iff_eq] at hb ⊢
            simp [hb]
          simp only [List.filter_cons, hfa1]
          simp only [Bool.not_eq_true] at hb
          rw [hb]
          simp [hbs]

theorem cluster_filter_sound (d : DataTables) :
    ∀ (l : List (List String)) (out : List (List String)),
      cluster_filter d l = some out →
      ∀ cl ∈ out,
        (∀ m ∈ cl, startsWithCOMP m = true) ∧ 3 ≤ cl.length ∧
        ((cl.filter (fun m => fraud_label_of d m == some 1)).length : ℚ) /
          (cl.length : ℚ) > 1/2 := by
  intro l
  induction l with
  | nil =>
    intro out h
    rw [cluster_filter] at h
    simp only [Option.some.injEq] at h
    subst h
    intro cl hcl
    cases hcl
  | cons members rest ih =>
    intro out h
    rw [cluster_filter] at h
    dsimp only at h
    by_cases hlen : (members.filter startsWithCOMP).length < 3
    · rw [if_pos hlen] at h
      exact ih out h
    · rw [if_neg hlen] at h
      cases hm : (members.filter startsWithCOMP).mapM (fraud_label_of d) with
      | none => rw [hm] at h; exact absurd h (by simp)
      | some labels =>
        rw [hm] at h
        dsimp only at h
        by_cases hconc : ((labels.filter (fun l => l == (1:Int))).length : ℚ) /
            ((members.filter startsWithCOMP).length : ℚ) > 1/2
        · rw [if_pos hconc] at h
          cases hr : cluster_filter d rest with
          | none => rw [hr] at h; exact absurd h (by simp)
          | some rest_out =>
            rw [hr] at h
            simp only [Option.map_some', Option.some.injEq] at h
            subst h
            intro cl hcl
            rcases List.mem_cons.mp hcl with rfl | hcl2
            · refine ⟨fun m hm2 => (List.mem_filter.mp hm2).2, by omega, ?_⟩
              rw [mapM_filter_count d _ _ hm] at hconc
              exact hconc
            · exact ih rest_out hr cl hcl2
        · rw [if_neg hconc] at h
          exact ih out h

/-- C5: every cluster returned by `detect_fraud_clusters` consists
solely of `COMP_`-prefixed (company) member ids, has at least 3
members, and its fraud concentration — members whose `fraud_label` is
1 over the member count — is strictly greater than 1/2. -/
theorem C5_fraud_clusters (d : DataTables) (partition : String → Nat)
    (clusters : List (List String))
    (h : detect_fraud_clusters d partition = some clusters) :
    ∀ cl ∈ clusters,
      (∀ m ∈ cl, startsWithCOMP m = true) ∧ 3 ≤ cl.length ∧
      ((cl.filter (fun m => fraud_label_of d m == some 1)).length : ℚ) /
        (cl.length : ℚ) > 1/2 := by
  unfold detect_fraud_clusters at h
  dsimp only at h
  exact cluster_filter_sound d _ clusters h

/-- Witness for C5: on `dClu` with the constant partition, the engine
returns the single cluster of all three fraud-labelled companies, and
the guarantees hold for it. -/
theorem C5_fraud_clusters_witness :
    (∀ m ∈ ["COMP_1", "COMP_2", "COMP_3"], startsWithCOMP m = true) ∧
    3 ≤ (["COMP_1", "COMP_2", "COMP_3"] : List String).length ∧
    ((((["COMP_1", "COMP_2", "COMP_3"] : List String).filter
        (fun m => fraud_label_of dClu m == some 1)).length : ℚ) /
      ((["COMP_1", "COMP_2", "COMP_3"] : List String).length : ℚ) > 1/2) := by
  have hdet : detect_fraud_clusters dClu (fun _ => 0) =
      some [["COMP_1", "COMP_2", "COMP_3"]] := by
    unfold detect_fraud_clusters
    dsimp only
    rw [show (((buildGraph dClu).nodes.map (fun _ => 0)).dedup).map
        (fun cid => (buildGraph dClu).nodes.filter
          (fun n => (fun _ => (0:Nat)) n == cid)) =
        [["COMP_1", "COMP_2", "COMP_3"]] from by decide]
    rw [cluster_filter]
    dsimp only
    rw [if_neg (by decide)]
    rw [show (List.filter startsWithCOMP
        ["COMP_1", "COMP_2", "COMP_3"]).mapM (fraud_label_of dClu) =
        some [1, 1, 1] from by decide]
    dsimp only
    rw [if_pos (by norm_num [show (List.filter (fun l => l == (1:Int))
        [1, 1, 1]).length = 3 from by decide,
      show (List.filter startsWithCOMP
        ["COMP_1", "COMP_2", "COMP_3"]).length = 3 from by decide])]
    decide
  exact C5_fraud_clusters dClu (fun _ => 0) [["COMP_1", "COMP_2", "COMP_3"]]
    hdet ["COMP_1", "COMP_2", "COMP_3"] (by simp)

/-- The indicator emitted when the shell factor exceeds its display
threshold. -/
def shellIndicator : RiskIndicator :=
  { indicator := "Shell Company Indicators", severity := "High",
    description := "Shared address and registration year with multiple entities" }

theorem indicators_characterize (c1 c2 c3 c4 : Prop) [Decidable c1] [Decidable c2]
    [Decidable c3] [Decidable c4] (x1 x2 x3 x4 i : RiskIndicator) :
    (i ∈ (if c1 then [x1] else []) ++ (if c2 then [x2] else []) ++
      (if c3 then [x3] else []) ++ (if c4 then [x4] else [])) ↔
    ((c1 ∧ i = x1) ∨ (c2 ∧ i = x2) ∨ (c3 ∧ i = x3) ∨ (c4 ∧ i = x4)) := by
  simp only [List.mem_append]
  split_ifs <;> simp_all <;> tauto

/-- C8: an indicator is emitted exactly when its factor exceeds the
display threshold — Shared Directors above 3/10 (High above 3/5, else
Medium), Suspicious Win Pattern above 2/5 (High above 7/10, else
Medium), High Network Centrality above 1/2 (Medium), Shell Company
Indicators above 1/2 (High) — and in the five-shared-address scenario
`dFive` the shell factor is 4/5 and the High-severity shell indicator
is the one indicator emitted. -/
theorem C8_indicator_emission :
    (∀ (d : DataTables) (cid : String) (s c : ℚ) (inds : List RiskIndicator),
      calculate_company_risk_score d cid = some (s, c, inds) →
      ((∃ i ∈ inds, i.indicator = "Shared Directors") ↔
          check_shared_directors d cid > 3/10) ∧
      (∀ i ∈ inds, i.indicator = "Shared Directors" →
        i.severity = if check_shared_directors d cid > 3/5 then "High" else "Medium") ∧
      ((∃ i ∈ inds, i.indicator = "Suspicious Win Pattern") ↔
          check_tender_patterns d cid > 2/5) ∧
      (∀ i ∈ inds, i.indicator = "Suspicious Win Pattern" →
        i.severity = if check_tender_patterns d cid > 7/10 then "High" else "Medium") ∧
      ((∃ i ∈ inds, i.indicator = "High Network Centrality") ↔
          calculate_centrality d cid > 1/2) ∧
      (∀ i ∈ inds, i.indicator = "High Network Centrality" → i.severity = "Medium") ∧
      ((∃ i ∈ inds, i.indicator = "Shell Company Indicators") ↔
          (check_shell_indicators d cid).getD 0 > 1/2) ∧
      (∀ i ∈ inds, i.indicator = "Shell Company Indicators" → i.severity = "High")) ∧
    check_shell_indicators dFive "COMP_1" = some (4/5) ∧
    calculate_company_risk_score dFive "COMP_1" = some (1/5, 1/2,
      [{ indicator := "Shell Company Indicators", severity := "High",
         description := "Shared address and registration year with multiple entities" }]) := by
  refine ⟨?_, by norm_num +decide [check_shell_indicators, dFive], dFive_score_eval⟩
  intro d cid s c inds h
  unfold calculate_company_risk_score at h
  cases hf : d.companies.find? (fun c => c.company_id == cid) with
  | none => rw [hf] at h; exact absurd h (by simp)
  | some comp =>
    rw [hf] at h
    dsimp only at h
    simp only [Option.some.injEq, Prod.mk.injEq] at h
    obtain ⟨-, -, hinds⟩ := h
    subst hinds
    refine ⟨?_, ?_, ?_, ?_, ?_, ?_, ?_, ?_⟩
    · constructor
      · rintro ⟨i, hi, hind⟩
        rcases (indicators_characterize _ _ _ _ _ _ _ _ _).mp hi with
          ⟨hc, rfl⟩ | ⟨hc, rfl⟩ | ⟨hc, rfl⟩ | ⟨hc, rfl⟩
        · exact hc
        · simp at hind
        · simp at hind
        · simp at hind
      · intro hc
        exact ⟨_, (indicators_characterize _ _ _ _ _ _ _ _ _).mpr
          (Or.inl ⟨hc, rfl⟩), rfl⟩
    · intro i hi hind
      rcases (indicators_characterize _ _ _ _ _ _ _ _ _).mp hi with
        ⟨hc, rfl⟩ | ⟨hc, rfl⟩ | ⟨hc, rfl⟩ | ⟨hc, rfl⟩
      · rfl
      · simp at hind
      · simp at hind
      · simp at hind
    · constructor
      · rintro ⟨i, hi, hind⟩
        rcases (indicators_characterize _ _ _ _ _ _ _ _ _).mp hi with
          ⟨hc, rfl⟩ | ⟨hc, rfl⟩ | ⟨hc, rfl⟩ | ⟨hc, rfl⟩
        · simp at hind
        · exact hc
        · simp at hind
        · simp at hind
      · intro hc
        exact ⟨_, (indicators_characterize _ _ _ _ _ _ _ _ _).mpr
          (Or.inr (Or.inl ⟨hc, rfl⟩)), rfl⟩
    · intro i hi hind
      rcases (indicators_characterize _ _ _ _ _ _ _ _ _).mp hi with
        ⟨hc, rfl⟩ | ⟨hc, rfl⟩ | ⟨hc, rfl⟩ | ⟨hc, rfl⟩
      · simp at hind
      · rfl
      · simp at hind
      · simp at hind
    · constructor
      · rintro ⟨i, hi, hind⟩
        rcases (indicators_characterize _ _ _ _ _ _ _ _ _).mp hi with
          ⟨hc, rfl⟩ | ⟨hc, rfl⟩ | ⟨hc, rfl⟩ | ⟨hc, rfl⟩
        · simp at hind
        · simp at hind
        · exact hc
        · simp at hind
      · intro hc
        exact ⟨_, (indicators_characterize _ _ _ _ _ _ _ _ _).mpr
          (Or.inr (Or.inr (Or.inl ⟨hc, rfl⟩))), rfl⟩
    · intro i hi hind
      rcases (indicators_characterize _ _ _ _ _ _ _ _ _).mp hi with
        ⟨hc, rfl⟩ | ⟨hc, rfl⟩ | ⟨hc, rfl⟩ | ⟨hc, rfl⟩
      · simp at hind
      · simp at hind
      · rfl
      · simp at hind
    · constructor
      · rintro ⟨i, hi, hind⟩
        rcases (indicators_characterize _ _ _ _ _ _ _ _ _).mp hi with
          ⟨hc, rfl⟩ | ⟨hc, rfl⟩ | ⟨hc, rfl⟩ | ⟨hc, rfl⟩
        · simp at hind
        · simp at hind
        · simp at hind
        · exact hc
      · intro hc
        exact ⟨_, (indicators_characterize _ _ _ _ _ _ _ _ _).mpr
          (Or.inr (Or.inr (Or.inr ⟨hc, rfl⟩))), rfl⟩
    · intro i hi hind
      rcases (indicators_characterize _ _ _ _ _ _ _ _ _).mp hi with
        ⟨hc, rfl⟩ | ⟨hc, rfl⟩ | ⟨hc, rfl⟩ | ⟨hc, rfl⟩
      · simp at hind
      · simp at hind
      · simp at hind
      · rfl

/-- Witness for C8 at `dFive`: the High-severity shell indicator is
emitted for `COMP_1`, whose shell factor 4/5 exceeds 1/2. -/
theorem C8_indicator_emission_witness :
    (∃ i ∈ [shellIndicator], i.indicator = "Shell Company Indicators") ∧
    (∀ i ∈ [shellIndicator], i.indicator = "Shell Company Indicators" →
      i.severity = "High") := by
  have h := C8_indicator_emission.1 dFive "COMP_1" (1/5) (1/2)
    [shellIndicator] C8_indicator_emission.2.2
  have hs : (check_shell_indicators dFive "COMP_1").getD 0 > 1/2 := by
    rw [C8_indicator_emission.2.1]
    norm_num
  exact ⟨h.2.2.2.2.2.2.1.mpr hs, h.2.2.2.2.2.2.2⟩

/-- C9: `get_risk_category` maps a score to High when the score is at
least 7/10, to Medium when it is at least 2/5 but below 7/10, and to
Low below 2/5; the mapping is a function of the score alone and is
monotone in the score (with Low < Medium < High). -/
theorem C9_risk_category (s t : ℚ) :
    (7/10 ≤ s → get_risk_category s = .HIGH) ∧
    (2/5 ≤ s → s < 7/10 → get_risk_category s = .MEDIUM) ∧
    (s < 2/5 → get_risk_category s = .LOW) ∧
    (s ≤ t → (get_risk_category s).rank ≤ (get_risk_category t).rank) := by
  refine ⟨?_, ?_, ?_, ?_⟩
  · intro h
    unfold get_risk_category
    rw [if_pos h]
  · intro h1 h2
    unfold get_risk_category
    rw [if_neg (by linarith), if_pos h1]
  · intro h
    unfold get_risk_category
    rw [if_neg (by linarith), if_neg (by linarith)]
  · intro hst
    unfold get_risk_category
    split_ifs <;> simp [RiskCategory.rank] <;> linarith

/-- Witness for C9 at the concrete scores 4/5, 1/2 and 0. -/
theorem C9_risk_category_witness :
    get_risk_category (4/5) = .HIGH ∧ get_risk_category (1/2) = .MEDIUM ∧
      get_risk_category 0 = .LOW ∧
      (get_risk_category 0).rank ≤ (get_risk_category (4/5)).rank :=
  ⟨(C9_risk_category (4/5) 0).1 (by norm_num),
   (C9_risk_category (1/2) 0).2.1 (by norm_num) (by norm_num),
   (C9_risk_category 0 0).2.2.1 (by norm_num),
   (C9_risk_category 0 (4/5)).2.2.2 (by norm_num)⟩

/-- C7: the confidence of an entity absent from the graph is exactly
3/10; the confidence of an entity present in the graph equals
`clamp (1/2 + degree/20, 0, 1)`; and the confidence always lies in
`[3/10, 1]`. -/
theorem C7_confidence (d : DataTables) (eid : String) :
    ((buildGraph d).nodes.contains eid = false →
      calculate_confidence d eid = 3/10) ∧
    ((buildGraph d).nodes.contains eid = true →
      calculate_confidence d eid =
        clamp (1/2 + ((buildGraph d).degree eid : ℚ) / 20) 0 1) ∧
    3/10 ≤ calculate_confidence d eid ∧ calculate_confidence d eid ≤ 1 := by
  have hd : (0:ℚ) ≤ ((buildGraph d).degree eid : ℚ) / 20 := by positivity
  unfold calculate_confidence
  dsimp only
  by_cases h : (buildGraph d).nodes.contains eid = true
  · rw [if_pos h]
    refine ⟨fun hc => by rw [hc] at h; exact Bool.noConfusion h,
      fun _ => ?_, ?_, min_le_right _ _⟩
    · unfold clamp
      exact (max_eq_right (le_min (by linarith) (by norm_num))).symm
    · exact le_min (by linarith) (by norm_num)
  · rw [if_neg h]
    exact ⟨fun _ => rfl, fun hc => absurd hc h, by norm_num, by norm_num⟩

/-- Witness for C7: `COMP_X` is absent from `dABC`'s graph and gets
confidence exactly 3/10; `COMP_A` is present and its confidence equals
the clamp form and lies in `[3/10, 1]`. -/
theorem C7_confidence_witness :
    calculate_confidence dABC "COMP_X" = 3/10 ∧
    calculate_confidence dABC "COMP_A" =
      clamp (1/2 + ((buildGraph dABC).degree "COMP_A" : ℚ) / 20) 0 1 ∧
    3/10 ≤ calculate_confidence dABC "COMP_A" ∧
    calculate_confidence dABC "COMP_A" ≤ 1 :=
  ⟨(C7_confidence dABC "COMP_X").1 (by decide),
   (C7_confidence dABC "COMP_A").2.1 (by decide),
   (C7_confidence dABC "COMP_A").2.2.1,
   (C7_confidence dABC "COMP_A").2.2.2⟩

end NetraAI
